import Mathlib

/-!
Verification of the clem_todo_reminders task/reminder manager.

The data model is embedded from the SQL migrations (src/unnamed/part_000 to
part_003, src/supabase_migration.sql, src/api/migrations/add_completed_fields.sql)
and the schema documented in src/README.md; the frontend operations are embedded
from src/app/components/TaskForm.js and src/app/components/TaskList.js.  The
Python backend (api/server.py) is not among the source files, so the dispatch
pass (reminder deriver, due-reminder selector, dispatch tracker, checkpoint
protocol) is modelled from the specification, as marked on each definition.

Instants (TIMESTAMP WITH TIME ZONE columns, JavaScript Date values) are modelled
as integers counting seconds since the Unix epoch.  Row identifiers (UUID
columns) are modelled as natural numbers.
-/

namespace ClemTodo

/-- A row of the `tasks` table: columns from src/unnamed/part_002 lines 5-16
(id, title, due_time, priority, completed, completed_at, single_reminder,
hours_before) plus the `phone_number` column added by
src/supabase_migration.sql.  `completed` defaults to false and `completed_at`
is nullable; `hours_before` is a nullable INTEGER. -/
structure Task where
  id : Nat
  title : String
  due_time : Int
  priority : String
  completed : Bool
  completed_at : Option Int
  single_reminder : Bool
  hours_before : Option Int
  phone_number : Option String
deriving DecidableEq

/-- A row of the `reminders` table (src/unnamed/part_002 lines 34-40 and
src/unnamed/part_003 lines 2-7): `task_id` references tasks(id) ON DELETE
CASCADE, `reminder_time` is a non-null instant. -/
structure Reminder where
  id : Nat
  task_id : Nat
  reminder_time : Int
deriving DecidableEq

/-- A row of the `processed_reminders` table as declared in src/README.md lines
136-142: primary key `id`, a `reminder_id` referencing reminders(id), the
instant it was processed, and the provider message identifier.  The declaration
places no uniqueness constraint on `reminder_id`. -/
structure ProcessedReminder where
  id : Nat
  reminder_id : Nat
  processed_at : Int
  message_id : Option String
deriving DecidableEq

/-- Insert of a row into `processed_reminders` under the constraints declared in
src/README.md lines 136-142: the only column constraint is the primary key on
`id`, so the insert fails only when the primary key collides; there is no
uniqueness constraint on `reminder_id`. -/
def insertProcessedRow (table : List ProcessedReminder) (row : ProcessedReminder) :
    Option (List ProcessedReminder) :=
  if table.any (fun p => p.id == row.id) then none else some (row :: table)

/-- Modelled from the spec: the Reminder Deriver lives in the Python backend
(api/server.py), which is not among the source files.  Spec 4.1: in
single-reminder mode exactly one reminder instant equal to the due instant
minus hours-before hours; in default mode the fixed offset set of 24 hours and
1 hour before due, generated without filtering past instants.  A
single-reminder task whose hours-before is missing is a malformed
configuration, whose derivation is skipped (spec 7d). -/
def deriveReminderTimes (due_time : Int) (single_reminder : Bool)
    (hours_before : Option Int) : List Int :=
  if single_reminder then
    match hours_before with
    | some h => [due_time - h * 3600]
    | none => []
  else
    [due_time - 24 * 3600, due_time - 3600]

/-- Modelled from the spec: the Due-Reminder Selector lives in the Python
backend (api/server.py), which is not among the source files.  Spec 4.2: given
`now` and the checkpoint `lastProcessed`, return the reminders of non-completed
tasks whose instant t satisfies lastProcessed < t and t ≤ now. -/
def dueReminders (tasks : List Task) (reminders : List Reminder)
    (lastProcessed now : Int) : List Reminder :=
  reminders.filter (fun r =>
    tasks.any (fun t => t.id == r.task_id && !t.completed) &&
    (decide (lastProcessed < r.reminder_time) && decide (r.reminder_time ≤ now)))

/-- The persistent state the dispatch pass touches: the `tasks` and `reminders`
tables, the `processed_reminders` table (Dispatch Records), and the
`last_processed_time` value kept in the `app_status` table (src/unnamed/part_001
lines 5-16 give that table a UNIQUE name column, so the checkpoint is a single
value). -/
structure SysState where
  tasks : List Task
  reminders : List Reminder
  processed : List ProcessedReminder
  checkpoint : Int
deriving DecidableEq

/-- True when a Dispatch Record for the given reminder identifier exists. -/
def recordFor (rid : Nat) (processed : List ProcessedReminder) : Bool :=
  processed.any (fun p => p.reminder_id == rid)

/-- Modelled from the spec: the Dispatch Tracker loop of the pass lives in the
Python backend (api/server.py), which is not among the source files.  Spec 4.3:
for each due reminder, first consult the Dispatch Records and skip the reminder
when one exists; otherwise call the Notifier, and after a successful send record
the Dispatch Record; when the Notifier call fails, no Dispatch Record is written
and the pass fails (spec 4.4: a pass that fails mid-loop leaves the Checkpoint
untouched).  `send` is the Notifier: a provider message identifier on success,
none on failure.  `nid` supplies fresh primary keys for Dispatch Records.  The
Bool of the result tells whether the loop ran to completion. -/
def dispatchLoop (send : Reminder → Option String) (now : Int) :
    List Reminder → SysState → Nat → Bool × SysState
  | [], st, _ => (true, st)
  | r :: rest, st, nid =>
    if recordFor r.id st.processed then
      dispatchLoop send now rest st nid
    else
      match send r with
      | some mid =>
        dispatchLoop send now rest
          { st with processed := ⟨nid, r.id, now, some mid⟩ :: st.processed } (nid + 1)
      | none => (false, st)

/-- Modelled from the spec: one dispatch pass (api/server.py is not among the
source files).  Spec section 2 and 4.4: select the reminders due since the
checkpoint, run the tracker/notifier loop over them, and only when the loop ran
to completion write the Checkpoint to the `now` captured at pass start —
also when zero reminders were due. -/
def runPass (send : Reminder → Option String) (now : Int) (nid : Nat)
    (st : SysState) : Bool × SysState :=
  let due := dueReminders st.tasks st.reminders st.checkpoint now
  let res := dispatchLoop send now due st nid
  if res.1 then (true, { res.2 with checkpoint := now }) else (false, res.2)

/-- The create request the task form submits: fields of `requestBody` built in
src/app/components/TaskForm.js lines 88-98. -/
structure CreateRequest where
  title : String
  due_time : Int
  priority : String
  single_reminder : Bool
  hours_before : Option Nat
deriving DecidableEq

/-- src/app/components/TaskForm.js lines 68-70: upper-case the first character
of the title (charAt(0).toUpperCase() + slice(1)), written over the character
list of the string so that it evaluates by kernel reduction. -/
def capitalizeFirstLetter (s : String) : String :=
  match s.data with
  | [] => s
  | c :: cs => String.mk (c.toUpper :: cs)

/-- The JavaScript String.trim applied to the title in
src/app/components/TaskForm.js line 89: drop whitespace from both ends,
written over the character list of the string. -/
def trimString (s : String) : String :=
  String.mk
    (((s.data.dropWhile Char.isWhitespace).reverse.dropWhile Char.isWhitespace).reverse)

/-- The JavaScript parseInt applied to the selected hours-before option in
src/app/components/TaskForm.js line 97, on the decimal option strings the form
offers: the numeric value of an all-digit string, none otherwise. -/
def parseNat (s : String) : Option Nat :=
  match s.data with
  | [] => none
  | cs =>
    if cs.all (fun c => c.isDigit)
      then some (cs.foldl (fun acc c => acc * 10 + (c.toNat - 48)) 0)
      else none

/-- The submit handler of the task form, src/app/components/TaskForm.js lines
72-106: combine the date and hour into the due instant, reject the submission
without issuing the create request when the due instant is not strictly after
`now` (lines 81-86), otherwise build the request body: capitalized trimmed
title, the due instant, the priority, and — only when the single-reminder box
is checked — single_reminder true with hours_before parsed from the selected
option string (lines 94-98). -/
def handleSubmit (now : Int) (title : String) (dueTime : Int) (priority : String)
    (useSingleReminder : Bool) (hoursBefore : String) : Option CreateRequest :=
  if dueTime ≤ now then none
  else some
    { title := capitalizeFirstLetter (trimString title)
      due_time := dueTime
      priority := priority
      single_reminder := useSingleReminder
      hours_before := if useSingleReminder then parseNat hoursBefore else none }

/-- The hours-before options offered by the form,
src/app/components/TaskForm.js line 140: the strings "1" to "24". -/
def hoursBeforeOptions : List String :=
  (List.range 24).map (fun i => Nat.repr (i + 1))

/-- A newly created task row: the form request fields plus the column defaults
of src/unnamed/part_002 lines 5-16 (completed FALSE, completed_at NULL). -/
def createdTask (tid : Nat) (req : CreateRequest) (phone : Option String) : Task :=
  { id := tid
    title := req.title
    due_time := req.due_time
    priority := req.priority
    completed := false
    completed_at := none
    single_reminder := req.single_reminder
    hours_before := req.hours_before.map (fun n => (n : Int))
    phone_number := phone }

/-- The complete-task update as performed by handleComplete in
src/app/components/TaskList.js lines 59-70: set the completed flag and the
completion instant together. -/
def completeTask (t : Task) (at_time : Int) : Task :=
  { t with completed := true, completed_at := some at_time }

/-- The task rows reachable through the operations present in the source:
creation through the form (column defaults of src/unnamed/part_002) and
completion (src/app/components/TaskList.js lines 59-70).  Deletion removes a
row and edits of other columns are not present in the source. -/
inductive TaskReach : Task → Prop
  | created (tid : Nat) (req : CreateRequest) (phone : Option String) :
      TaskReach (createdTask tid req phone)
  | complete (t : Task) (at_time : Int) :
      TaskReach t → TaskReach (completeTask t at_time)

/-- Deleting a task under the schema of src/unnamed/part_002 and
src/unnamed/part_003: the task row goes away, and the
`REFERENCES tasks(id) ON DELETE CASCADE` clause on reminders.task_id deletes
every reminder row referencing the deleted task. -/
def deleteTask (tasks : List Task) (reminders : List Reminder) (tid : Nat) :
    List Task × List Reminder :=
  (tasks.filter (fun t => !(t.id == tid)),
   reminders.filter (fun r => !(r.task_id == tid)))

/-- The sort applied to the fetched incomplete tasks before display,
src/app/components/TaskList.js lines 36-39: sort by due_time ascending. -/
def sortIncompleteTasks (ts : List Task) : List Task :=
  ts.mergeSort (fun a b => decide (a.due_time ≤ b.due_time))

/-! ### Helper lemmas -/

/-- Membership in the Due-Reminder Selector output, unfolded. -/
lemma mem_dueReminders (tasks : List Task) (reminders : List Reminder)
    (lastProcessed now : Int) (r : Reminder) :
    r ∈ dueReminders tasks reminders lastProcessed now ↔
      r ∈ reminders ∧ (∃ t ∈ tasks, t.id = r.task_id ∧ t.completed = false) ∧
        lastProcessed < r.reminder_time ∧ r.reminder_time ≤ now := by
  simp only [dueReminders, List.mem_filter, Bool.and_eq_true, List.any_eq_true,
    beq_iff_eq, Bool.not_eq_true', decide_eq_true_eq]

/-- The tracker/notifier loop never touches the tasks table, the reminders
table, or the checkpoint: it only reads them and writes Dispatch Records. -/
lemma dispatchLoop_preserves (send : Reminder → Option String) (now : Int) :
    ∀ (l : List Reminder) (st : SysState) (nid : Nat),
      ((dispatchLoop send now l st nid).2).tasks = st.tasks ∧
      ((dispatchLoop send now l st nid).2).reminders = st.reminders ∧
      ((dispatchLoop send now l st nid).2).checkpoint = st.checkpoint := by
  intro l
  induction l with
  | nil => intro st nid; exact ⟨rfl, rfl, rfl⟩
  | cons r rest ih =>
    intro st nid
    by_cases hrec : recordFor r.id st.processed
    · simpa only [dispatchLoop, hrec, if_true] using ih st nid
    · cases hsend : send r with
      | some mid =>
        simpa only [dispatchLoop, hrec, if_false, Bool.false_eq_true, hsend]
          using ih _ (nid + 1)
      | none =>
        simp only [dispatchLoop, hrec, if_false, Bool.false_eq_true, hsend]
        exact ⟨trivial, trivial, trivial⟩

/-- A Dispatch Record for a reminder identifier exists exactly when the
identifier occurs among the recorded reminder identifiers. -/
lemma recordFor_eq_false (rid : Nat) (processed : List ProcessedReminder) :
    recordFor rid processed = false ↔
      ∀ p ∈ processed, p.reminder_id ≠ rid := by
  simp [recordFor, List.any_eq_true]

/-- When every occurrence of a reminder identifier in the work list is the
reminder r itself, r is in the list, no Dispatch Record for it exists yet, and
the Notifier fails on r, the loop fails and still no Dispatch Record for r
exists afterwards. -/
lemma dispatchLoop_fail_no_record (send : Reminder → Option String) (now : Int)
    (r : Reminder) (hfail : send r = none) :
    ∀ (l : List Reminder) (st : SysState) (nid : Nat),
      r ∈ l → recordFor r.id st.processed = false →
      (∀ x ∈ l, x.id = r.id → x = r) →
      (dispatchLoop send now l st nid).1 = false ∧
      recordFor r.id ((dispatchLoop send now l st nid).2).processed = false := by
  intro l
  induction l with
  | nil => intro st nid hmem; exact absurd hmem (List.not_mem_nil r)
  | cons x rest ih =>
    intro st nid hmem hrec huniq
    by_cases hx : x = r
    · subst hx
      simp only [dispatchLoop, hrec, Bool.false_eq_true, if_false, hfail]
      exact ⟨trivial, trivial⟩
    · have hne : x.id ≠ r.id := fun h => hx (huniq x (List.mem_cons_self x rest) h)
      have hmem' : r ∈ rest := by
        rcases List.mem_cons.mp hmem with h | h
        · exact absurd h.symm hx
        · exact h
      have huniq' : ∀ y ∈ rest, y.id = r.id → y = r :=
        fun y hy => huniq y (List.mem_cons_of_mem x hy)
      by_cases hrx : recordFor x.id st.processed
      · simpa only [dispatchLoop, hrx, if_true] using ih st nid hmem' hrec huniq'
      · cases hsend : send x with
        | some mid =>
          have hrec' : recordFor r.id
              ((⟨nid, x.id, now, some mid⟩ : ProcessedReminder) :: st.processed : List ProcessedReminder) = false := by
            rw [recordFor_eq_false] at hrec ⊢
            intro p hp
            rcases List.mem_cons.mp hp with h | h
            · subst h; exact hne
            · exact hrec p h
          simpa only [dispatchLoop, hrx, Bool.false_eq_true, if_false, hsend]
            using ih _ (nid + 1) hmem' hrec' huniq'
        | none =>
          simp only [dispatchLoop, hrx, Bool.false_eq_true, if_false, hsend]
          exact ⟨trivial, hrec⟩

/-- The loop inserts a Dispatch Record only for a reminder identifier that has
no record yet, so distinctness of recorded reminder identifiers is
preserved. -/
lemma dispatchLoop_nodup (send : Reminder → Option String) (now : Int) :
    ∀ (l : List Reminder) (st : SysState) (nid : Nat),
      (st.processed.map (fun p => p.reminder_id)).Nodup →
      (((dispatchLoop send now l st nid).2).processed.map
        (fun p => p.reminder_id)).Nodup := by
  intro l
  induction l with
  | nil => intro st nid h; exact h
  | cons r rest ih =>
    intro st nid h
    by_cases hrec : recordFor r.id st.processed
    · simpa only [dispatchLoop, hrec, if_true] using ih st nid h
    · cases hsend : send r with
      | some mid =>
        have h' : (((⟨nid, r.id, now, some mid⟩ : ProcessedReminder) :: st.processed).map
            (fun p => p.reminder_id)).Nodup := by
          have hrecf : ∀ p ∈ st.processed, p.reminder_id ≠ r.id :=
            (recordFor_eq_false _ _).mp (by simpa using hrec)
          simp only [List.map_cons, List.nodup_cons]
          refine ⟨?_, h⟩
          simp only [List.mem_map]
          rintro ⟨p, hp, hpid⟩
          exact hrecf p hp hpid
        simpa only [dispatchLoop, hrec, Bool.false_eq_true, if_false, hsend]
          using ih _ (nid + 1) h'
      | none =>
        simpa only [dispatchLoop, hrec, Bool.false_eq_true, if_false, hsend] using h

/-! ### Theorems for the claims -/

/-- C2: a reminder is returned by the Due-Reminder Selector exactly when it is
stored, belongs to a non-completed task, and its instant t satisfies
lastProcessed < t and t ≤ now — so the whole backlog inside the half-open
interval is returned in the single pass, and no reminder of a completed task is
ever returned. -/
theorem due_reminder_selection (tasks : List Task) (reminders : List Reminder)
    (lastProcessed now : Int) (r : Reminder) :
    r ∈ dueReminders tasks reminders lastProcessed now ↔
      r ∈ reminders ∧ (∃ t ∈ tasks, t.id = r.task_id ∧ t.completed = false) ∧
        lastProcessed < r.reminder_time ∧ r.reminder_time ≤ now :=
  mem_dueReminders tasks reminders lastProcessed now r

/-- C5: in single-reminder mode with hours-before H the Reminder Deriver
produces exactly one reminder, whose instant is the due instant minus H
hours. -/
theorem single_reminder_derivation (due H : Int) :
    deriveReminderTimes due true (some H) = [due - H * 3600] ∧
    (deriveReminderTimes due true (some H)).length = 1 :=
  ⟨rfl, rfl⟩

/-- C10: the list of incomplete tasks the UI displays is a permutation of the
fetched incomplete tasks, sorted by due instant in ascending order. -/
theorem incomplete_tasks_displayed_sorted (ts : List Task) :
    (sortIncompleteTasks ts).Perm ts ∧
      (sortIncompleteTasks ts).Pairwise (fun a b => a.due_time ≤ b.due_time) := by
  refine ⟨List.mergeSort_perm ts _, ?_⟩
  refine List.Pairwise.imp (fun h => of_decide_eq_true h) ?_
  exact List.sorted_mergeSort
    (fun a b c h1 h2 => by
      simp only [decide_eq_true_eq] at h1 h2 ⊢; omega)
    (fun a b => by
      simp only [Bool.or_eq_true, decide_eq_true_eq]; omega)
    ts

/-- C3: a pass that runs to completion writes the Checkpoint to the `now`
captured at pass start — also when zero reminders were due — a pass that fails
before completion leaves the Checkpoint unchanged, and consequently the
Checkpoint never decreases across passes whose start instant is at or after the
previous checkpoint. -/
theorem checkpoint_protocol (send : Reminder → Option String) (now : Int)
    (nid : Nat) (st : SysState) (h : st.checkpoint ≤ now) :
    (∀ st', runPass send now nid st = (true, st') → st'.checkpoint = now) ∧
    (∀ st', runPass send now nid st = (false, st') → st'.checkpoint = st.checkpoint) ∧
    st.checkpoint ≤ ((runPass send now nid st).2).checkpoint := by
  have hp := (dispatchLoop_preserves send now
    (dueReminders st.tasks st.reminders st.checkpoint now) st nid).2.2
  simp only [runPass]
  by_cases hb : (dispatchLoop send now
      (dueReminders st.tasks st.reminders st.checkpoint now) st nid).1
  · simp only [hb, if_true]
    refine ⟨?_, ?_, ?_⟩
    · intro st' he
      rw [Prod.mk.injEq] at he
      rw [← he.2]
    · intro st' he
      rw [Prod.mk.injEq] at he
      exact absurd he.1 (by decide)
    · simpa using h
  · simp only [hb, Bool.false_eq_true, if_false]
    refine ⟨?_, ?_, ?_⟩
    · intro st' he
      rw [Prod.mk.injEq] at he
      exact absurd he.1 (by decide)
    · intro st' he
      rw [Prod.mk.injEq] at he
      rw [← he.2, hp]
    · rw [hp]

/-- Witness for C3 at a concrete input: a state with empty tables and
checkpoint 0, a pass at now = 5. -/
theorem checkpoint_protocol_witness :
    (SysState.mk [] [] [] 0).checkpoint ≤ 5 ∧
    ((∀ st', runPass (fun _ => none) 5 0 (SysState.mk [] [] [] 0) = (true, st') →
        st'.checkpoint = 5) ∧
     (∀ st', runPass (fun _ => none) 5 0 (SysState.mk [] [] [] 0) = (false, st') →
        st'.checkpoint = (SysState.mk [] [] [] 0).checkpoint) ∧
     (SysState.mk [] [] [] 0).checkpoint ≤
       ((runPass (fun _ => none) 5 0 (SysState.mk [] [] [] 0)).2).checkpoint) :=
  ⟨by decide, checkpoint_protocol (fun _ => none) 5 0 (SysState.mk [] [] [] 0) (by decide)⟩

/-- C4: when the Notifier fails on a due reminder (and it is the only due
reminder carrying its identifier), the pass fails, no Dispatch Record for it is
written in that pass, and the reminder is selected again by the next pass at
any start instant at or after the failed pass's start — a failed send is never
permanently dropped. -/
theorem failed_send_retried (send : Reminder → Option String) (now now' : Int)
    (nid : Nat) (st : SysState) (r : Reminder)
    (hfail : send r = none)
    (hdue : r ∈ dueReminders st.tasks st.reminders st.checkpoint now)
    (huniq : ∀ x ∈ dueReminders st.tasks st.reminders st.checkpoint now,
      x.id = r.id → x = r)
    (hrec : recordFor r.id st.processed = false)
    (hnow : now ≤ now') :
    (runPass send now nid st).1 = false ∧
    recordFor r.id ((runPass send now nid st).2).processed = false ∧
    r ∈ dueReminders ((runPass send now nid st).2).tasks
        ((runPass send now nid st).2).reminders
        ((runPass send now nid st).2).checkpoint now' := by
  have hl := dispatchLoop_fail_no_record send now r hfail
    (dueReminders st.tasks st.reminders st.checkpoint now) st nid hdue hrec huniq
  have hp := dispatchLoop_preserves send now
    (dueReminders st.tasks st.reminders st.checkpoint now) st nid
  simp only [runPass, hl.1, Bool.false_eq_true, if_false]
  refine ⟨trivial, hl.2, ?_⟩
  rw [hp.1, hp.2.1, hp.2.2]
  rw [mem_dueReminders] at hdue ⊢
  obtain ⟨h1, h2, h3, h4⟩ := hdue
  exact ⟨h1, h2, h3, le_trans h4 hnow⟩

/-- Witness for C4 at a concrete input: one non-completed task, one reminder
due at 50 inside the window (0, 60], a Notifier that always fails, and a next
pass at 70. -/
theorem failed_send_retried_witness :
    Reminder.mk 7 1 50 ∈
      dueReminders [Task.mk 1 "T" 100 "High" false none true (some 2) none]
        [Reminder.mk 7 1 50] 0 60 ∧
    ((runPass (fun _ => none) 60 0
        (SysState.mk [Task.mk 1 "T" 100 "High" false none true (some 2) none]
          [Reminder.mk 7 1 50] [] 0)).1 = false ∧
     recordFor 7 ((runPass (fun _ => none) 60 0
        (SysState.mk [Task.mk 1 "T" 100 "High" false none true (some 2) none]
          [Reminder.mk 7 1 50] [] 0)).2).processed = false ∧
     Reminder.mk 7 1 50 ∈
       dueReminders ((runPass (fun _ => none) 60 0
          (SysState.mk [Task.mk 1 "T" 100 "High" false none true (some 2) none]
            [Reminder.mk 7 1 50] [] 0)).2).tasks
         ((runPass (fun _ => none) 60 0
            (SysState.mk [Task.mk 1 "T" 100 "High" false none true (some 2) none]
              [Reminder.mk 7 1 50] [] 0)).2).reminders
         ((runPass (fun _ => none) 60 0
            (SysState.mk [Task.mk 1 "T" 100 "High" false none true (some 2) none]
              [Reminder.mk 7 1 50] [] 0)).2).checkpoint 70) :=
  ⟨by decide,
   failed_send_retried (fun _ => none) 60 70 0
     (SysState.mk [Task.mk 1 "T" 100 "High" false none true (some 2) none]
       [Reminder.mk 7 1 50] [] 0)
     (Reminder.mk 7 1 50) rfl (by decide) (by decide) (by decide) (by decide)⟩

/-- C1 (counterexample): the processed_reminders declaration in src/README.md
lines 136-142 carries no uniqueness constraint on reminder_id, so a second
write recording the same reminder (under a fresh primary key) succeeds instead
of failing, and the table then holds two permanent Dispatch Records for
reminder identifier 5. -/
theorem dispatch_record_duplicate_possible :
    insertProcessedRow [] (ProcessedReminder.mk 0 5 100 (some "m1")) =
      some [ProcessedReminder.mk 0 5 100 (some "m1")] ∧
    insertProcessedRow [ProcessedReminder.mk 0 5 100 (some "m1")]
        (ProcessedReminder.mk 1 5 200 (some "m2")) =
      some [ProcessedReminder.mk 1 5 200 (some "m2"),
            ProcessedReminder.mk 0 5 100 (some "m1")] ∧
    ([ProcessedReminder.mk 1 5 200 (some "m2"),
      ProcessedReminder.mk 0 5 100 (some "m1")].map (fun p => p.reminder_id)) =
      [5, 5] := by
  refine ⟨rfl, rfl, rfl⟩

/-- C1 (amended): within a sequential dispatch pass the tracker checks for an
existing Dispatch Record before writing one, so a pass that starts from a
table with distinct reminder identifiers ends with the identifiers still
distinct — at most one Dispatch Record per reminder identifier. -/
theorem pass_preserves_record_uniqueness (send : Reminder → Option String)
    (now : Int) (nid : Nat) (st : SysState)
    (h : (st.processed.map (fun p => p.reminder_id)).Nodup) :
    (((runPass send now nid st).2).processed.map (fun p => p.reminder_id)).Nodup := by
  have hn := dispatchLoop_nodup send now
    (dueReminders st.tasks st.reminders st.checkpoint now) st nid h
  simp only [runPass]
  by_cases hb : (dispatchLoop send now
      (dueReminders st.tasks st.reminders st.checkpoint now) st nid).1
  · simpa [hb] using hn
  · simpa [hb] using hn

/-- Witness for C1's amended theorem at a concrete input: a table already
holding one record for reminder 5, a pass over empty task and reminder
tables. -/
theorem pass_preserves_record_uniqueness_witness :
    (((SysState.mk [] [] [ProcessedReminder.mk 0 5 100 none] 0).processed.map
        (fun p => p.reminder_id)).Nodup) ∧
    (((runPass (fun _ => none) 5 0
        (SysState.mk [] [] [ProcessedReminder.mk 0 5 100 none] 0)).2).processed.map
      (fun p => p.reminder_id)).Nodup :=
  ⟨by decide,
   pass_preserves_record_uniqueness (fun _ => none) 5 0
     (SysState.mk [] [] [ProcessedReminder.mk 0 5 100 none] 0) (by decide)⟩

/-- C6: for every task reachable through the operations in the source —
creation with the schema defaults and the complete-task update, which sets the
flag and the completion instant together — the completion instant is present
exactly when the completion flag is true. -/
theorem completed_iff_completion_instant (t : Task) (h : TaskReach t) :
    t.completed = true ↔ t.completed_at.isSome = true := by
  induction h with
  | created tid req phone => simp [createdTask]
  | complete t at_time _ _ => simp [completeTask]

/-- Witness for C6 at a concrete input: a task created through the form and
then completed. -/
theorem completed_iff_completion_instant_witness :
    (completeTask (createdTask 1 (CreateRequest.mk "A" 10 "Low" false none) none)
        20).completed = true ↔
    (completeTask (createdTask 1 (CreateRequest.mk "A" 10 "Low" false none) none)
        20).completed_at.isSome = true :=
  completed_iff_completion_instant _
    (TaskReach.complete _ 20
      (TaskReach.created 1 (CreateRequest.mk "A" 10 "Low" false none) none))

/-- C7: deleting a task removes every reminder whose task_id references it
(the ON DELETE CASCADE clause of the reminders table), and when every reminder
referenced an existing task beforehand, every remaining reminder still belongs
to an existing task afterwards. -/
theorem delete_task_cascades (tasks : List Task) (reminders : List Reminder)
    (tid : Nat)
    (hFK : ∀ r ∈ reminders, ∃ t ∈ tasks, t.id = r.task_id) :
    (∀ r ∈ (deleteTask tasks reminders tid).2, r.task_id ≠ tid) ∧
    (∀ r ∈ (deleteTask tasks reminders tid).2,
      ∃ t ∈ (deleteTask tasks reminders tid).1, t.id = r.task_id) := by
  constructor
  · intro r hr
    simp only [deleteTask, List.mem_filter, Bool.not_eq_true', beq_eq_false_iff_ne,
      ne_eq] at hr
    exact hr.2
  · intro r hr
    simp only [deleteTask, List.mem_filter, Bool.not_eq_true', beq_eq_false_iff_ne,
      ne_eq] at hr
    obtain ⟨t, ht, hid⟩ := hFK r hr.1
    refine ⟨t, ?_, hid⟩
    simp only [deleteTask, List.mem_filter, Bool.not_eq_true', beq_eq_false_iff_ne,
      ne_eq]
    exact ⟨ht, fun he => hr.2 (he ▸ hid ▸ rfl)⟩

/-- Witness for C7 at a concrete input: two tasks each owning a reminder,
deleting task 1. -/
theorem delete_task_cascades_witness :
    (∀ r ∈ (deleteTask
        [Task.mk 1 "A" 10 "Low" false none false none none,
         Task.mk 2 "B" 20 "High" false none false none none]
        [Reminder.mk 10 1 5, Reminder.mk 11 2 15] 1).2, r.task_id ≠ 1) ∧
    (∀ r ∈ (deleteTask
        [Task.mk 1 "A" 10 "Low" false none false none none,
         Task.mk 2 "B" 20 "High" false none false none none]
        [Reminder.mk 10 1 5, Reminder.mk 11 2 15] 1).2,
      ∃ t ∈ (deleteTask
        [Task.mk 1 "A" 10 "Low" false none false none none,
         Task.mk 2 "B" 20 "High" false none false none none]
        [Reminder.mk 10 1 5, Reminder.mk 11 2 15] 1).1, t.id = r.task_id) :=
  delete_task_cascades
    [Task.mk 1 "A" 10 "Low" false none false none none,
     Task.mk 2 "B" 20 "High" false none false none none]
    [Reminder.mk 10 1 5, Reminder.mk 11 2 15] 1 (by decide)

/-- C8: a submission whose combined due instant is not strictly after the
submission instant is rejected without issuing the create request, and
conversely a create request is issued only when the due instant is strictly in
the future, carrying that due instant — so every task created through the form
is due in the future at creation time. -/
theorem task_creation_due_future (now : Int) (title : String) (dueTime : Int)
    (priority : String) (useSingleReminder : Bool) (hoursBefore : String) :
    (dueTime ≤ now →
      handleSubmit now title dueTime priority useSingleReminder hoursBefore = none) ∧
    (∀ req,
      handleSubmit now title dueTime priority useSingleReminder hoursBefore =
        some req →
      now < dueTime ∧ req.due_time = dueTime) := by
  constructor
  · intro hle
    unfold handleSubmit
    rw [if_pos hle]
  · intro req h
    unfold handleSubmit at h
    split at h
    · exact absurd h (by simp)
    · next hle =>
      refine ⟨lt_of_not_le hle, ?_⟩
      cases h
      rfl

/-- Witness for C8 at concrete inputs: a submission at now = 20 with due
instant 10 is rejected, and a submission at now = 0 with due instant 10 goes
through with that due instant. -/
theorem task_creation_due_future_witness :
    (handleSubmit 20 "x" 10 "Low" false "2" = none) ∧
    ((0 : Int) < 10 ∧
      (CreateRequest.mk "X" 10 "Low" false none).due_time = 10) :=
  ⟨(task_creation_due_future 20 "x" 10 "Low" false "2").1 (by decide),
   (task_creation_due_future 0 "x" 10 "Low" false "2").2
     (CreateRequest.mk "X" 10 "Low" false none) (by decide)⟩

/-- C9: the form offers hours-before options "1" to "24" only (and the initial
value is "2"), so every create request submitted with single-reminder mode
carries an hours_before integer between 1 and 24 inclusive. -/
theorem hours_before_in_range (now : Int) (title : String) (dueTime : Int)
    (priority : String) (hoursBefore : String) (req : CreateRequest)
    (hopt : hoursBefore = "2" ∨ hoursBefore ∈ hoursBeforeOptions)
    (h : handleSubmit now title dueTime priority true hoursBefore = some req) :
    ∃ n, req.hours_before = some n ∧ 1 ≤ n ∧ n ≤ 24 := by
  have hval : (parseNat hoursBefore).isSome = true ∧
      1 ≤ (parseNat hoursBefore).getD 0 ∧ (parseNat hoursBefore).getD 0 ≤ 24 := by
    rcases hopt with h2 | hmem
    · subst h2; decide
    · revert hmem
      have hall : ∀ s ∈ hoursBeforeOptions,
          (parseNat s).isSome = true ∧
            1 ≤ (parseNat s).getD 0 ∧ (parseNat s).getD 0 ≤ 24 := by
        decide
      exact hall hoursBefore
  unfold handleSubmit at h
  split at h
  · exact absurd h (by simp)
  · cases h
    obtain ⟨hsome, h1, h24⟩ := hval
    obtain ⟨n, hn⟩ := Option.isSome_iff_exists.mp hsome
    refine ⟨n, by simp [hn], ?_, ?_⟩
    · simpa [hn] using h1
    · simpa [hn] using h24

/-- Witness for C9 at a concrete input: submitting with the option "24"
selected yields hours_before = 24. -/
theorem hours_before_in_range_witness :
    ("24" = "2" ∨ "24" ∈ hoursBeforeOptions) ∧
    (∃ n, (CreateRequest.mk "X" 10 "Low" true (some 24)).hours_before = some n ∧
      1 ≤ n ∧ n ≤ 24) :=
  ⟨by decide,
   hours_before_in_range 0 "x" 10 "Low" "24"
     (CreateRequest.mk "X" 10 "Low" true (some 24)) (by decide) (by decide)⟩

end ClemTodo
